import Mathlib

/-!
Shallow embedding of the Casa Moringa property-rental server core:
the in-memory entity store (src/server/storage.ts), the WhatsApp
messaging gateway and phone normalizer (src/server/whatsapp-service.ts),
and the shared schema types (drizzle schema in the shared module).

Modelling conventions:
  - JS strings are modelled as Lean String; where character-level
    manipulation matters (the phone normalizer) the model works on the
    underlying List Char with a String wrapper.
  - JS Date values are modelled as integer timestamps (Int); Date
    comparison in the source is numeric comparison.
  - JS Map of string to T is modelled as a List T with the record id as
    the key: Map.get is the first element with that id, Map.set replaces
    the entry in place when the key is present and appends otherwise,
    Map.delete removes the entries with that key.
  - nullable fields (null or undefined at runtime) are Option; the JS
    nullish-coalescing operator is Option.getD, while the JS logical-or
    on strings (which also treats the empty string as falsy) is the
    jsOrStr helper below.
  - nondeterministic inputs of the source (randomUUID, the current time,
    the outcome of the outbound HTTP call to the provider) are passed as
    explicit parameters.
  - thrown exceptions are modelled with Except.
-/

namespace CasaMoringa

/-- JS logical-or specialised to an optional string on the left: returns
the left string when it is present and non-empty (truthy), else the
right operand. Models expressions such as `a || b` where `a` may be
null, undefined or the empty string. -/
def jsOrStr (a : Option String) (b : String) : String :=
  match a with
  | some s => if s == ("") then b else s
  | none => b

/-- JS `x || null` for an optional string: collapses the empty string
(falsy) to null. -/
def jsStrOrNull (a : Option String) : Option String :=
  match a with
  | some s => if s == ("") then none else some s
  | none => none

/-- JS truthiness of an optional string: false for undefined, null and
the empty string. -/
def jsOptTruthy (a : Option String) : Bool :=
  match a with
  | some s => s != ("")
  | none => false

/-! ## Phone normalizer (WhatsAppService.normalizePhoneNumber) -/

/-- Embeds WhatsAppService.normalizePhoneNumber on the character list of
the input: strip every non-digit character (the regex replace of \D by
the empty string), then the branch ladder on length and prefix. -/
def normalizePhoneNumber (phone : List Char) : List Char :=
  let cleaned := phone.filter Char.isDigit
  if cleaned.length == 11 && List.isPrefixOf [('1'), ('1')] cleaned then
    [('5'), ('5')] ++ cleaned
  else if cleaned.length == 10 then
    [('5'), ('5'), ('1'), ('1')] ++ cleaned
  else if cleaned.length == 13 && List.isPrefixOf [('5'), ('5')] cleaned then
    cleaned
  else
    cleaned

/-- String-level front end of the phone normalizer. -/
def normalizePhone (s : String) : String :=
  String.mk (normalizePhoneNumber s.data)

/-! ## Data model (shared schema types) -/

/-- Property record (properties table). -/
structure Property where
  id : String
  name : String
  description : Option String
  address : String
  maxGuests : Nat
  dailyRate : String
  amenities : Option (List String)
  photos : Option (List String)
  createdAt : Int
  deriving Repr, DecidableEq

/-- Guest record (guests table, with the address fields used by
MemStorage.createGuest). -/
structure Guest where
  id : String
  name : String
  email : String
  phone : String
  cpf : Option String
  street : Option String
  number : Option String
  complement : Option String
  city : Option String
  state : Option String
  zipCode : Option String
  document : Option String
  notes : Option String
  createdAt : Int
  deriving Repr, DecidableEq

/-- Booking record (bookings table); checkIn and checkOut are timestamps. -/
structure Booking where
  id : String
  propertyId : String
  guestId : String
  checkIn : Int
  checkOut : Int
  numberOfGuests : Nat
  totalAmount : String
  status : String
  notes : Option String
  createdAt : Int
  deriving Repr, DecidableEq

/-- Maintenance-task record (maintenance_tasks table). -/
structure MaintenanceTask where
  id : String
  propertyId : String
  title : String
  description : Option String
  type : String
  status : String
  scheduledDate : Option Int
  completedDate : Option Int
  assignedTo : Option String
  cost : Option String
  notes : Option String
  createdAt : Int
  deriving Repr, DecidableEq

/-- Expense record (expenses table). -/
structure Expense where
  id : String
  propertyId : String
  category : String
  description : String
  amount : String
  date : Int
  receipt : Option String
  createdAt : Int
  deriving Repr, DecidableEq

/-- Message record (messages table); sentAt is the creation timestamp. -/
structure Message where
  id : String
  bookingId : Option String
  guestId : Option String
  subject : Option String
  content : String
  type : String
  channel : String
  direction : String
  whatsappMessageId : Option String
  whatsappStatus : Option String
  fromNumber : Option String
  toNumber : Option String
  isRead : Bool
  sentAt : Int
  deriving Repr, DecidableEq

/-- Joined view of a booking (BookingWithGuest). The TypeScript type
declares guest and property non-null, but getBookings builds the view
with non-null assertions on map lookups, so at runtime the embedded
guest or property is undefined when the reference does not resolve;
the model records that runtime value as an Option. -/
structure BookingWithGuest where
  booking : Booking
  guest : Option Guest
  property : Option Property
  deriving Repr, DecidableEq

/-- Joined view of a message (MessageWithRelations): guest and booking
are optional relations, and the embedded booking is itself the joined
booking view produced by getBooking. -/
structure MessageWithRelations where
  message : Message
  guest : Option Guest
  booking : Option BookingWithGuest
  deriving Repr, DecidableEq

/-! ## Entity store state (MemStorage) -/

/-- The six collections of MemStorage, each a JS Map keyed by record id,
modelled as lists in insertion order. -/
structure MemStorage where
  properties : List Property
  guests : List Guest
  bookings : List Booking
  maintenanceTasks : List MaintenanceTask
  expenses : List Expense
  messages : List Message
  deriving Repr, DecidableEq

/-- Map.set on an id-keyed collection: replace the entry in place when
the key is already present, append otherwise. -/
def setById (getId : α → String) (l : List α) (v : α) : List α :=
  if l.any (fun x => getId x == getId v) then
    l.map (fun x => if getId x == getId v then v else x)
  else
    l ++ [v]

/-- Map.get on an id-keyed collection: first entry with the key. -/
def getById (getId : α → String) (l : List α) (id : String) : Option α :=
  l.find? (fun x => getId x == id)

/-! ## Store read operations -/

/-- MemStorage.getProperty: lookup in the properties map. -/
def MemStorage.getProperty (s : MemStorage) (id : String) : Option Property :=
  getById Property.id s.properties id

/-- MemStorage.getGuest: lookup in the guests map. -/
def MemStorage.getGuest (s : MemStorage) (id : String) : Option Guest :=
  getById Guest.id s.guests id

/-- The joined view getBookings builds for one stored booking: the
spread of the booking with the results of the guest and property
lookups. The source applies TypeScript non-null assertions to both
lookups, which have no runtime effect, so an unresolved reference is
embedded as undefined (none) and the booking is still returned. -/
def joinBooking (s : MemStorage) (bk : Booking) : BookingWithGuest :=
  { booking := bk
  , guest := s.getGuest bk.guestId
  , property := s.getProperty bk.propertyId }

/-- MemStorage.getBookings: every stored booking, each joined with its
guest and property lookups. -/
def MemStorage.getBookings (s : MemStorage) : List BookingWithGuest :=
  s.bookings.map (joinBooking s)

/-- MemStorage.getBooking: single-booking lookup; returns undefined when
the booking is absent or when either the guest or the property lookup
fails. -/
def MemStorage.getBooking (s : MemStorage) (id : String) : Option BookingWithGuest :=
  match getById Booking.id s.bookings id with
  | none => none
  | some bk =>
    match s.getGuest bk.guestId, s.getProperty bk.propertyId with
    | some g, some p => some { booking := bk, guest := some g, property := some p }
    | some _, none => none
    | none, _ => none

/-- MemStorage.getBookingsByProperty: filter of getBookings. -/
def MemStorage.getBookingsByProperty (s : MemStorage) (propertyId : String) :
    List BookingWithGuest :=
  (s.getBookings).filter (fun v => v.booking.propertyId == propertyId)

/-- MemStorage.getBookingsByGuest: filter of getBookings. -/
def MemStorage.getBookingsByGuest (s : MemStorage) (guestId : String) :
    List BookingWithGuest :=
  (s.getBookings).filter (fun v => v.booking.guestId == guestId)

/-- MemStorage.getBookingsByDateRange: filter of getBookings by interval
overlap, checkIn at most endDate and checkOut at least startDate. -/
def MemStorage.getBookingsByDateRange (s : MemStorage) (startDate endDate : Int) :
    List BookingWithGuest :=
  (s.getBookings).filter
    (fun v => decide (v.booking.checkIn ≤ endDate) && decide (startDate ≤ v.booking.checkOut))

/-- MemStorage.deleteGuest: Map.delete returning whether a record was
removed. -/
def MemStorage.deleteGuest (s : MemStorage) (id : String) : MemStorage × Bool :=
  ({ s with guests := s.guests.filter (fun g => g.id != id) },
   s.guests.any (fun g => g.id == id))

/-- The joined view getMessages builds for one stored message: guest and
booking relations are resolved only when the foreign id is truthy (a
JS conditional, so a null id or the empty string resolves to
undefined); the booking relation goes through getBooking and is
therefore itself undefined when that joined lookup fails. -/
def joinMessage (s : MemStorage) (m : Message) : MessageWithRelations :=
  { message := m
  , guest := match m.guestId with
      | some gid => if gid == ("") then none else s.getGuest gid
      | none => none
  , booking := match m.bookingId with
      | some bid => if bid == ("") then none else s.getBooking bid
      | none => none }

/-- MemStorage.getMessages: every stored message joined with its
relations. -/
def MemStorage.getMessages (s : MemStorage) : List MessageWithRelations :=
  s.messages.map (joinMessage s)

/-- MemStorage.getMessagesByChannel: filter of getMessages. -/
def MemStorage.getMessagesByChannel (s : MemStorage) (channel : String) :
    List MessageWithRelations :=
  (s.getMessages).filter (fun v => v.message.channel == channel)

/-- MemStorage.getWhatsAppMessages: channel=whatsapp messages, further
filtered by exact equality of fromNumber or toNumber against the
phone number when one is supplied; the guard is JS truthiness, so an
absent argument and the empty string both skip the filter. -/
def MemStorage.getWhatsAppMessages (s : MemStorage) (phoneNumber : Option String) :
    List MessageWithRelations :=
  let whatsappMessages := s.getMessagesByChannel ("whatsapp")
  if jsOptTruthy phoneNumber = false then whatsappMessages
  else
    whatsappMessages.filter
      (fun v => v.message.fromNumber == phoneNumber || v.message.toNumber == phoneNumber)

/-! ## Partial update inputs

The HTTP layer validates partial updates against the insert schemas,
which omit the id and the creation timestamp (drizzle-zod
createInsertSchema(...).omit of id and createdAt, or id and sentAt for
messages). A Partial of such a type may supply any subset of the
remaining fields; an absent field (none here) keeps the stored value
under the object-spread merge of the update methods. -/

/-- Partial of InsertProperty. -/
structure PartialProperty where
  name : Option String
  description : Option (Option String)
  address : Option String
  maxGuests : Option Nat
  dailyRate : Option String
  amenities : Option (Option (List String))
  photos : Option (Option (List String))
  deriving Repr, DecidableEq

/-- Partial of InsertGuest. -/
structure PartialGuest where
  name : Option String
  email : Option String
  phone : Option String
  cpf : Option (Option String)
  street : Option (Option String)
  number : Option (Option String)
  complement : Option (Option String)
  city : Option (Option String)
  state : Option (Option String)
  zipCode : Option (Option String)
  document : Option (Option String)
  notes : Option (Option String)
  deriving Repr, DecidableEq

/-- Partial of InsertBooking. -/
structure PartialBooking where
  propertyId : Option String
  guestId : Option String
  checkIn : Option Int
  checkOut : Option Int
  numberOfGuests : Option Nat
  totalAmount : Option String
  status : Option String
  notes : Option (Option String)
  deriving Repr, DecidableEq

/-- Partial of InsertMaintenanceTask. -/
structure PartialMaintenanceTask where
  propertyId : Option String
  title : Option String
  description : Option (Option String)
  type : Option String
  status : Option String
  scheduledDate : Option (Option Int)
  completedDate : Option (Option Int)
  assignedTo : Option (Option String)
  cost : Option (Option String)
  notes : Option (Option String)
  deriving Repr, DecidableEq

/-- Partial of InsertExpense. -/
structure PartialExpense where
  propertyId : Option String
  category : Option String
  description : Option String
  amount : Option String
  date : Option Int
  receipt : Option (Option String)
  deriving Repr, DecidableEq

/-- Partial of InsertMessage. -/
structure PartialMessage where
  bookingId : Option (Option String)
  guestId : Option (Option String)
  subject : Option (Option String)
  content : Option String
  type : Option String
  channel : Option String
  direction : Option String
  whatsappMessageId : Option (Option String)
  whatsappStatus : Option (Option String)
  fromNumber : Option (Option String)
  toNumber : Option (Option String)
  isRead : Option Bool
  deriving Repr, DecidableEq

/-- The empty partial (an update body supplying no field). -/
def emptyPartialProperty : PartialProperty :=
  { name := none, description := none, address := none, maxGuests := none
  , dailyRate := none, amenities := none, photos := none }

/-- The empty guest partial. -/
def emptyPartialGuest : PartialGuest :=
  { name := none, email := none, phone := none, cpf := none, street := none
  , number := none, complement := none, city := none, state := none
  , zipCode := none, document := none, notes := none }

/-- The empty booking partial. -/
def emptyPartialBooking : PartialBooking :=
  { propertyId := none, guestId := none, checkIn := none, checkOut := none
  , numberOfGuests := none, totalAmount := none, status := none, notes := none }

/-- The empty maintenance-task partial. -/
def emptyPartialMaintenanceTask : PartialMaintenanceTask :=
  { propertyId := none, title := none, description := none, type := none
  , status := none, scheduledDate := none, completedDate := none
  , assignedTo := none, cost := none, notes := none }

/-- The empty expense partial. -/
def emptyPartialExpense : PartialExpense :=
  { propertyId := none, category := none, description := none, amount := none
  , date := none, receipt := none }

/-- The empty message partial. -/
def emptyPartialMessage : PartialMessage :=
  { bookingId := none, guestId := none, subject := none, content := none
  , type := none, channel := none, direction := none
  , whatsappMessageId := none, whatsappStatus := none, fromNumber := none
  , toNumber := none, isRead := none }

/-- The object spread of a property partial over an existing record:
supplied fields overwrite, absent fields keep the stored value; id and
createdAt are not part of the partial type and are copied. -/
def applyPartialProperty (e : Property) (p : PartialProperty) : Property :=
  { id := e.id
  , name := p.name.getD e.name
  , description := p.description.getD e.description
  , address := p.address.getD e.address
  , maxGuests := p.maxGuests.getD e.maxGuests
  , dailyRate := p.dailyRate.getD e.dailyRate
  , amenities := p.amenities.getD e.amenities
  , photos := p.photos.getD e.photos
  , createdAt := e.createdAt }

/-- Object spread of a guest partial over an existing record. -/
def applyPartialGuest (e : Guest) (p : PartialGuest) : Guest :=
  { id := e.id
  , name := p.name.getD e.name
  , email := p.email.getD e.email
  , phone := p.phone.getD e.phone
  , cpf := p.cpf.getD e.cpf
  , street := p.street.getD e.street
  , number := p.number.getD e.number
  , complement := p.complement.getD e.complement
  , city := p.city.getD e.city
  , state := p.state.getD e.state
  , zipCode := p.zipCode.getD e.zipCode
  , document := p.document.getD e.document
  , notes := p.notes.getD e.notes
  , createdAt := e.createdAt }

/-- Object spread of a booking partial over an existing record. -/
def applyPartialBooking (e : Booking) (p : PartialBooking) : Booking :=
  { id := e.id
  , propertyId := p.propertyId.getD e.propertyId
  , guestId := p.guestId.getD e.guestId
  , checkIn := p.checkIn.getD e.checkIn
  , checkOut := p.checkOut.getD e.checkOut
  , numberOfGuests := p.numberOfGuests.getD e.numberOfGuests
  , totalAmount := p.totalAmount.getD e.totalAmount
  , status := p.status.getD e.status
  , notes := p.notes.getD e.notes
  , createdAt := e.createdAt }

/-- Object spread of a maintenance-task partial over an existing record. -/
def applyPartialMaintenanceTask (e : MaintenanceTask) (p : PartialMaintenanceTask) :
    MaintenanceTask :=
  { id := e.id
  , propertyId := p.propertyId.getD e.propertyId
  , title := p.title.getD e.title
  , description := p.description.getD e.description
  , type := p.type.getD e.type
  , status := p.status.getD e.status
  , scheduledDate := p.scheduledDate.getD e.scheduledDate
  , completedDate := p.completedDate.getD e.completedDate
  , assignedTo := p.assignedTo.getD e.assignedTo
  , cost := p.cost.getD e.cost
  , notes := p.notes.getD e.notes
  , createdAt := e.createdAt }

/-- Object spread of an expense partial over an existing record. -/
def applyPartialExpense (e : Expense) (p : PartialExpense) : Expense :=
  { id := e.id
  , propertyId := p.propertyId.getD e.propertyId
  , category := p.category.getD e.category
  , description := p.description.getD e.description
  , amount := p.amount.getD e.amount
  , date := p.date.getD e.date
  , receipt := p.receipt.getD e.receipt
  , createdAt := e.createdAt }

/-- Object spread of a message partial over an existing record; the
creation timestamp of a message is sentAt. -/
def applyPartialMessage (e : Message) (p : PartialMessage) : Message :=
  { id := e.id
  , bookingId := p.bookingId.getD e.bookingId
  , guestId := p.guestId.getD e.guestId
  , subject := p.subject.getD e.subject
  , content := p.content.getD e.content
  , type := p.type.getD e.type
  , channel := p.channel.getD e.channel
  , direction := p.direction.getD e.direction
  , whatsappMessageId := p.whatsappMessageId.getD e.whatsappMessageId
  , whatsappStatus := p.whatsappStatus.getD e.whatsappStatus
  , fromNumber := p.fromNumber.getD e.fromNumber
  , toNumber := p.toNumber.getD e.toNumber
  , isRead := p.isRead.getD e.isRead
  , sentAt := e.sentAt }

/-! ## Store update operations -/

/-- MemStorage.updateProperty: not-found when the id is absent, else the
merged record is stored back under the same id and returned. -/
def MemStorage.updateProperty (s : MemStorage) (id : String) (p : PartialProperty) :
    MemStorage × Option Property :=
  match getById Property.id s.properties id with
  | none => (s, none)
  | some existing =>
    let updated := applyPartialProperty existing p
    ({ s with properties := setById Property.id s.properties updated }, some updated)

/-- MemStorage.updateGuest. -/
def MemStorage.updateGuest (s : MemStorage) (id : String) (p : PartialGuest) :
    MemStorage × Option Guest :=
  match getById Guest.id s.guests id with
  | none => (s, none)
  | some existing =>
    let updated := applyPartialGuest existing p
    ({ s with guests := setById Guest.id s.guests updated }, some updated)

/-- MemStorage.updateBooking. -/
def MemStorage.updateBooking (s : MemStorage) (id : String) (p : PartialBooking) :
    MemStorage × Option Booking :=
  match getById Booking.id s.bookings id with
  | none => (s, none)
  | some existing =>
    let updated := applyPartialBooking existing p
    ({ s with bookings := setById Booking.id s.bookings updated }, some updated)

/-- MemStorage.updateMaintenanceTask. -/
def MemStorage.updateMaintenanceTask (s : MemStorage) (id : String)
    (p : PartialMaintenanceTask) : MemStorage × Option MaintenanceTask :=
  match getById MaintenanceTask.id s.maintenanceTasks id with
  | none => (s, none)
  | some existing =>
    let updated := applyPartialMaintenanceTask existing p
    ({ s with maintenanceTasks := setById MaintenanceTask.id s.maintenanceTasks updated },
     some updated)

/-- MemStorage.updateExpense. -/
def MemStorage.updateExpense (s : MemStorage) (id : String) (p : PartialExpense) :
    MemStorage × Option Expense :=
  match getById Expense.id s.expenses id with
  | none => (s, none)
  | some existing =>
    let updated := applyPartialExpense existing p
    ({ s with expenses := setById Expense.id s.expenses updated }, some updated)

/-- MemStorage.updateMessage. -/
def MemStorage.updateMessage (s : MemStorage) (id : String) (p : PartialMessage) :
    MemStorage × Option Message :=
  match getById Message.id s.messages id with
  | none => (s, none)
  | some existing =>
    let updated := applyPartialMessage existing p
    ({ s with messages := setById Message.id s.messages updated }, some updated)

/-- MemStorage.updateWhatsAppMessageStatus: linear scan of the message
collection for the first message whose whatsappMessageId equals the
given external id (strict equality, so a message with a null external
id never matches); sets only whatsappStatus, stores the merged record
back under the same message id, and returns it; not-found otherwise. -/
def MemStorage.updateWhatsAppMessageStatus (s : MemStorage)
    (whatsappMessageId status : String) : MemStorage × Option Message :=
  match s.messages.find? (fun m => m.whatsappMessageId == some whatsappMessageId) with
  | none => (s, none)
  | some m =>
    let updated : Message := { m with whatsappStatus := some status }
    ({ s with messages := setById Message.id s.messages updated }, some updated)

/-! ## Message creation -/

/-- InsertMessage: the message creation input; optional fields absent in
the request body arrive as undefined and are null-coalesced by
createMessage. -/
structure InsertMessage where
  bookingId : Option String
  guestId : Option String
  subject : Option String
  content : String
  type : Option String
  channel : Option String
  direction : Option String
  whatsappMessageId : Option String
  whatsappStatus : Option String
  fromNumber : Option String
  toNumber : Option String
  isRead : Option Bool
  deriving Repr, DecidableEq

/-- MemStorage.createMessage: fills defaults by nullish coalescing,
assigns the fresh id and the current time as sentAt (both passed in as
the nondeterministic inputs of the source), stores and returns the
record. -/
def MemStorage.createMessage (s : MemStorage) (im : InsertMessage)
    (freshId : String) (now : Int) : MemStorage × Message :=
  let newMessage : Message :=
    { id := freshId
    , bookingId := im.bookingId
    , guestId := im.guestId
    , subject := im.subject
    , content := im.content
    , type := im.type.getD ("general")
    , channel := im.channel.getD ("internal")
    , direction := im.direction.getD ("outgoing")
    , whatsappMessageId := im.whatsappMessageId
    , whatsappStatus := im.whatsappStatus
    , fromNumber := im.fromNumber
    , toNumber := im.toNumber
    , isRead := im.isRead.getD false
    , sentAt := now }
  ({ s with messages := setById Message.id s.messages newMessage }, newMessage)

/-! ## WhatsApp messaging gateway (WhatsAppService) -/

/-- Provider credentials (WhatsAppConfig). -/
structure WhatsAppConfig where
  accessToken : String
  phoneNumberId : String
  verifyToken : String
  webhookUrl : Option String
  deriving Repr, DecidableEq

/-- Gateway state: at most one active configuration. -/
structure WhatsAppService where
  config : Option WhatsAppConfig
  deriving Repr, DecidableEq

/-- WhatsAppService.isConfigured: a configuration exists and both the
access token and the sender id are truthy (non-empty). -/
def WhatsAppService.isConfigured (svc : WhatsAppService) : Bool :=
  match svc.config with
  | none => false
  | some c => (c.accessToken != ("")) && (c.phoneNumberId != (""))

/-- Runtime value of the non-null-asserted config access for the sender
id (the source only evaluates it after the isConfigured guard). -/
def WhatsAppService.senderId (svc : WhatsAppService) : String :=
  match svc.config with
  | some c => c.phoneNumberId
  | none => ("")

/-- Outcome of the outbound HTTP call to the provider, passed to the
send operations as an explicit input: success carries the message id
the provider returns (response.data.messages[0].id); failure carries
the provider error body message (error.response.data.error.message,
absent when the failure had no provider response) and the transport
error message (error.message). -/
inductive ProviderResult where
  | success (messageId : String)
  | failure (providerMessage : Option String) (transportMessage : Option String)
  deriving Repr, DecidableEq

/-- WhatsAppService.sendTextMessage: configuration guard, then the
provider call; on success a new outgoing whatsapp Message is persisted
and the provider message id returned; on failure nothing is persisted
and the normalized error is raised, its message the provider error
message when truthy, else the transport message, else the fixed
fallback. The guestId and bookingId arguments are null-coalesced with
JS logical-or. -/
def WhatsAppService.sendTextMessage (svc : WhatsAppService) (s : MemStorage)
    (toPhone message : String) (guestId bookingId : Option String)
    (provider : ProviderResult) (freshId : String) (now : Int) :
    MemStorage × Except String String :=
  if svc.isConfigured = false then
    (s, Except.error ("WhatsApp service not configured"))
  else
    match provider with
    | ProviderResult.failure pm tm =>
      (s, Except.error (jsOrStr pm (jsOrStr tm ("Failed to send WhatsApp message"))))
    | ProviderResult.success mid =>
      let messageData : InsertMessage :=
        { content := message
        , type := some ("general")
        , channel := some ("whatsapp")
        , direction := some ("outgoing")
        , toNumber := some toPhone
        , fromNumber := some svc.senderId
        , whatsappMessageId := some mid
        , whatsappStatus := some ("sent")
        , guestId := jsStrOrNull guestId
        , bookingId := jsStrOrNull bookingId
        , subject := none
        , isRead := some false }
      ((s.createMessage messageData freshId now).1, Except.ok mid)

/-- WhatsAppService.sendTemplateMessage: same contract as the text send;
the persisted content is the human-readable template label and the
failure fallback message differs. The template payload itself
(name, language code, positional parameters) only shapes the outbound
HTTP body, which the ProviderResult input abstracts. -/
def WhatsAppService.sendTemplateMessage (svc : WhatsAppService) (s : MemStorage)
    (toPhone templateName languageCode : String) (parameters : Option (List String))
    (guestId bookingId : Option String) (provider : ProviderResult)
    (freshId : String) (now : Int) : MemStorage × Except String String :=
  if svc.isConfigured = false then
    (s, Except.error ("WhatsApp service not configured"))
  else
    match provider with
    | ProviderResult.failure pm tm =>
      (s, Except.error (jsOrStr pm (jsOrStr tm ("Failed to send WhatsApp template"))))
    | ProviderResult.success mid =>
      let messageData : InsertMessage :=
        { content := ("Template: ") ++ templateName
        , type := some ("general")
        , channel := some ("whatsapp")
        , direction := some ("outgoing")
        , toNumber := some toPhone
        , fromNumber := some svc.senderId
        , whatsappMessageId := some mid
        , whatsappStatus := some ("sent")
        , guestId := jsStrOrNull guestId
        , bookingId := jsStrOrNull bookingId
        , subject := none
        , isRead := some false }
      ((s.createMessage messageData freshId now).1, Except.ok mid)

/-! ## Webhook ingestion -/

/-- Inbound webhook contact entry. -/
structure WebhookContact where
  wa_id : String
  deriving Repr, DecidableEq

/-- Inbound webhook message entry: text carries the body of a text
message; the image, document and audio flags model presence of the
corresponding payload objects. -/
structure WebhookMessage where
  id : String
  text : Option String
  image : Bool
  document : Bool
  audio : Bool
  deriving Repr, DecidableEq

/-- Inbound message webhook value: the messages and contacts arrays may
each be absent. -/
structure IncomingPayload where
  messages : Option (List WebhookMessage)
  contacts : Option (List WebhookContact)
  deriving Repr, DecidableEq

/-- Status webhook entry. -/
structure StatusEntry where
  id : String
  status : String
  deriving Repr, DecidableEq

/-- Status webhook value. -/
structure StatusPayload where
  statuses : Option (List StatusEntry)
  deriving Repr, DecidableEq

/-- The try-block of WhatsAppService.processIncomingMessage. A null or
undefined payload makes the very first property access throw (the
modelled exception); an absent or empty messages array returns without
effect, as does an absent first contact; otherwise the contact phone
is normalized, the guests are scanned for a phone matching under the
same normalization, the content string is derived from the message
type, and a new incoming Message is persisted. -/
def processIncomingMessageBody (svc : WhatsAppService) (s : MemStorage)
    (payload : Option IncomingPayload) (freshId : String) (now : Int) :
    Except String MemStorage :=
  match payload with
  | none => Except.error ("TypeError: cannot read properties of null")
  | some pd =>
    match pd.messages with
    | none => Except.ok s
    | some [] => Except.ok s
    | some (message :: _) =>
      let contact := match pd.contacts with
        | none => none
        | some l => l.head?
      match contact with
      | none => Except.ok s
      | some c =>
        let normalizedPhone := normalizePhone c.wa_id
        let guest := s.guests.find? (fun g => normalizePhone g.phone == normalizedPhone)
        let messageContent :=
          match message.text with
          | some body => body
          | none =>
            if message.image then ("[Imagem]")
            else if message.document then ("[Documento]")
            else if message.audio then ("[Áudio]")
            else ("[Mensagem não suportada]")
        let insertMessage : InsertMessage :=
          { content := messageContent
          , type := some ("general")
          , channel := some ("whatsapp")
          , direction := some ("incoming")
          , fromNumber := some c.wa_id
          , toNumber := some (jsOrStr (svc.config.map (fun cf => cf.phoneNumberId)) (""))
          , whatsappMessageId := some message.id
          , whatsappStatus := some ("received")
          , guestId := jsStrOrNull (guest.map (fun g => g.id))
          , bookingId := none
          , subject := none
          , isRead := some false }
        Except.ok (s.createMessage insertMessage freshId now).1

/-- WhatsAppService.processIncomingMessage: the try-block wrapped in the
catch-all handler, which logs the error and resolves normally with the
store untouched. -/
def processIncomingMessage (svc : WhatsAppService) (s : MemStorage)
    (payload : Option IncomingPayload) (freshId : String) (now : Int) :
    Except String MemStorage :=
  match processIncomingMessageBody svc s payload freshId now with
  | Except.ok s2 => Except.ok s2
  | Except.error _ => Except.ok s

/-- The try-block of WhatsAppService.processStatusUpdate: a null payload
throws on the first property access; an absent or empty statuses array
returns without effect; otherwise the first status entry drives
updateWhatsAppMessageStatus (whose not-found outcome is only logged). -/
def processStatusUpdateBody (s : MemStorage) (payload : Option StatusPayload) :
    Except String MemStorage :=
  match payload with
  | none => Except.error ("TypeError: cannot read properties of null")
  | some pd =>
    match pd.statuses with
    | none => Except.ok s
    | some [] => Except.ok s
    | some (st :: _) => Except.ok (s.updateWhatsAppMessageStatus st.id st.status).1

/-- WhatsAppService.processStatusUpdate: the try-block wrapped in the
catch-all handler. -/
def processStatusUpdate (s : MemStorage) (payload : Option StatusPayload) :
    Except String MemStorage :=
  match processStatusUpdateBody s payload with
  | Except.ok s2 => Except.ok s2
  | Except.error _ => Except.ok s

/-! ## Helper lemmas -/

/-- A two-element list is a Boolean prefix of a list exactly when the
first two elements of the list form that pair. -/
lemma isPrefixOf_pair_iff (a b : Char) (l : List Char) :
    List.isPrefixOf [a, b] l = true ↔ l.take 2 = [a, b] := by
  cases l with
  | nil => simp [List.isPrefixOf]
  | cons x xs =>
    cases xs with
    | nil => simp [List.isPrefixOf]
    | cons y ys =>
      simp only [List.isPrefixOf, Bool.and_eq_true, beq_iff_eq, List.take_succ_cons,
        List.take_zero, List.cons.injEq, and_true]
      exact ⟨fun h => ⟨h.1.symm, h.2.symm⟩, fun h => ⟨h.1.symm, h.2.symm⟩⟩

/-- Normalizer, first branch: eleven digits starting with the area code. -/
lemma norm_branch1 (p : List Char) (h11 : (p.filter Char.isDigit).length = 11)
    (hpre : (p.filter Char.isDigit).take 2 = [('1'), ('1')]) :
    normalizePhoneNumber p = [('5'), ('5')] ++ p.filter Char.isDigit := by
  have hb : List.isPrefixOf [('1'), ('1')] (p.filter Char.isDigit) = true :=
    (isPrefixOf_pair_iff _ _ _).mpr hpre
  simp [normalizePhoneNumber, h11, hb]

/-- Normalizer, second branch: exactly ten digits. -/
lemma norm_branch2 (p : List Char) (h10 : (p.filter Char.isDigit).length = 10) :
    normalizePhoneNumber p = [('5'), ('5'), ('1'), ('1')] ++ p.filter Char.isDigit := by
  simp [normalizePhoneNumber, h10]

/-- Normalizer, third branch: thirteen digits already carrying the
country code. -/
lemma norm_branch3 (p : List Char) (h13 : (p.filter Char.isDigit).length = 13)
    (hpre : (p.filter Char.isDigit).take 2 = [('5'), ('5')]) :
    normalizePhoneNumber p = p.filter Char.isDigit := by
  have hb : List.isPrefixOf [('5'), ('5')] (p.filter Char.isDigit) = true :=
    (isPrefixOf_pair_iff _ _ _).mpr hpre
  simp [normalizePhoneNumber, h13, hb]

/-- Normalizer, fall-through branch: none of the three patterns matches
and the stripped digits are returned unchanged. -/
lemma norm_branch4 (p : List Char)
    (hn1 : ¬ ((p.filter Char.isDigit).length = 11 ∧
              (p.filter Char.isDigit).take 2 = [('1'), ('1')]))
    (hn2 : (p.filter Char.isDigit).length ≠ 10)
    (hn3 : ¬ ((p.filter Char.isDigit).length = 13 ∧
              (p.filter Char.isDigit).take 2 = [('5'), ('5')])) :
    normalizePhoneNumber p = p.filter Char.isDigit := by
  have hb1 : ((p.filter Char.isDigit).length == 11 &&
      List.isPrefixOf [('1'), ('1')] (p.filter Char.isDigit)) = false := by
    rw [Bool.eq_false_iff]
    intro hb
    rw [Bool.and_eq_true, beq_iff_eq, isPrefixOf_pair_iff] at hb
    exact hn1 hb
  have hb2 : ((p.filter Char.isDigit).length == 10) = false := by
    rw [Bool.eq_false_iff]
    intro hb
    exact hn2 (by rwa [beq_iff_eq] at hb)
  have hb3 : ((p.filter Char.isDigit).length == 13 &&
      List.isPrefixOf [('5'), ('5')] (p.filter Char.isDigit)) = false := by
    rw [Bool.eq_false_iff]
    intro hb
    rw [Bool.and_eq_true, beq_iff_eq, isPrefixOf_pair_iff] at hb
    exact hn3 hb
  simp [normalizePhoneNumber, hb1, hb2, hb3]

/-- Every character produced by the normalizer is a digit. -/
lemma normalizePhoneNumber_all_digits (p : List Char) :
    (normalizePhoneNumber p).all Char.isDigit = true := by
  have hd : (p.filter Char.isDigit).all Char.isDigit = true :=
    List.all_eq_true.mpr (fun x hx => List.of_mem_filter hx)
  simp only [normalizePhoneNumber]
  split
  · simp [List.all_append, hd]
  · split
    · simp [List.all_append, hd]
    · split
      · exact hd
      · exact hd

/-- A list of digits is unchanged by the digit filter. -/
lemma filter_digits_of_all (l : List Char) (h : l.all Char.isDigit = true) :
    l.filter Char.isDigit = l :=
  List.filter_eq_self.mpr (List.all_eq_true.mp h)

/-! ## C2: the phone normalizer branch table -/

/-- C2. The Phone Normalizer strips every non-digit character and then
branches exactly as specified: length 11 starting with the digits 1,1
prepends the country code 55; else length exactly 10 prepends 5511;
else length 13 starting with 5,5 is returned unchanged; otherwise the
stripped digits are returned as-is. In particular the string
11987654321 normalizes to 5511987654321 and the nine-digit string
987654321 is returned unchanged. -/
theorem phone_normalizer_branch_table :
    (∀ p : List Char,
      ((p.filter Char.isDigit).length = 11 →
        (p.filter Char.isDigit).take 2 = [('1'), ('1')] →
        normalizePhoneNumber p = [('5'), ('5')] ++ p.filter Char.isDigit)
      ∧ ((p.filter Char.isDigit).length = 10 →
        normalizePhoneNumber p = [('5'), ('5'), ('1'), ('1')] ++ p.filter Char.isDigit)
      ∧ ((p.filter Char.isDigit).length = 13 →
        (p.filter Char.isDigit).take 2 = [('5'), ('5')] →
        normalizePhoneNumber p = p.filter Char.isDigit)
      ∧ (¬ ((p.filter Char.isDigit).length = 11 ∧
            (p.filter Char.isDigit).take 2 = [('1'), ('1')]) →
        (p.filter Char.isDigit).length ≠ 10 →
        ¬ ((p.filter Char.isDigit).length = 13 ∧
            (p.filter Char.isDigit).take 2 = [('5'), ('5')]) →
        normalizePhoneNumber p = p.filter Char.isDigit))
    ∧ normalizePhone ("11987654321") = ("5511987654321")
    ∧ normalizePhone ("987654321") = ("987654321") := by
  refine ⟨fun p => ⟨?_, ?_, ?_, ?_⟩, ?_, ?_⟩
  · exact fun h11 hpre => norm_branch1 p h11 hpre
  · exact fun h10 => norm_branch2 p h10
  · exact fun h13 hpre => norm_branch3 p h13 hpre
  · exact fun hn1 hn2 hn3 => norm_branch4 p hn1 hn2 hn3
  · rfl
  · rfl

/-- C2 witness: the first branch of the table evaluated at the concrete
eleven-digit input starting with 11. -/
theorem phone_normalizer_branch_table_witness :
    normalizePhoneNumber (("11987654321").data) =
      [('5'), ('5')] ++ (("11987654321").data).filter Char.isDigit :=
  (phone_normalizer_branch_table.1 (("11987654321").data)).1 (by decide) (by decide)

/-! ## C10: the phone normalizer is digits-only and idempotent -/

/-- C10. normalizePhoneNumber produces only digit characters and is
idempotent: normalizing an already-normalized string returns it
unchanged. -/
theorem phone_normalizer_digits_idempotent :
    (∀ s : String, ((normalizePhone s).data.all Char.isDigit = true)
      ∧ normalizePhone (normalizePhone s) = normalizePhone s) := by
  intro s
  constructor
  · exact normalizePhoneNumber_all_digits s.data
  · show String.mk (normalizePhoneNumber (normalizePhoneNumber s.data)) =
      String.mk (normalizePhoneNumber s.data)
    congr 1
    have hall := normalizePhoneNumber_all_digits s.data
    have hfix := filter_digits_of_all _ hall
    set p := s.data with hp
    set r := normalizePhoneNumber p with hr
    have hd : (p.filter Char.isDigit).all Char.isDigit = true :=
      List.all_eq_true.mpr (fun x hx => List.of_mem_filter hx)
    have hdfix : (p.filter Char.isDigit).filter Char.isDigit = p.filter Char.isDigit :=
      filter_digits_of_all _ hd
    by_cases h1 : (p.filter Char.isDigit).length = 11 ∧
        (p.filter Char.isDigit).take 2 = [('1'), ('1')]
    · have hres : r = [('5'), ('5')] ++ p.filter Char.isDigit := norm_branch1 p h1.1 h1.2
      have hlen : (r.filter Char.isDigit).length = 13 := by
        rw [hfix, hres, List.length_append, h1.1]
        rfl
      have hpre : (r.filter Char.isDigit).take 2 = [('5'), ('5')] := by
        rw [hfix, hres]
        rfl
      rw [norm_branch3 r hlen hpre, hfix, hres]
    · by_cases h2 : (p.filter Char.isDigit).length = 10
      · have hres : r = [('5'), ('5'), ('1'), ('1')] ++ p.filter Char.isDigit :=
          norm_branch2 p h2
        have hlen : (r.filter Char.isDigit).length = 14 := by
          rw [hfix, hres, List.length_append, h2]
          rfl
        rw [norm_branch4 r (by rw [hlen]; simp) (by rw [hlen]; simp)
          (by rw [hlen]; simp), hfix, hres]
      · by_cases h3 : (p.filter Char.isDigit).length = 13 ∧
            (p.filter Char.isDigit).take 2 = [('5'), ('5')]
        · have hres : r = p.filter Char.isDigit := norm_branch3 p h3.1 h3.2
          have hlen : (r.filter Char.isDigit).length = 13 := by
            rw [hfix, hres]
            exact h3.1
          have hpre : (r.filter Char.isDigit).take 2 = [('5'), ('5')] := by
            rw [hfix, hres]
            exact h3.2
          rw [norm_branch3 r hlen hpre, hfix, hres]
        · have hres : r = p.filter Char.isDigit := norm_branch4 p h1 h2 h3
          have hn1 : ¬ ((r.filter Char.isDigit).length = 11 ∧
              (r.filter Char.isDigit).take 2 = [('1'), ('1')]) := by
            rw [hfix, hres]
            exact h1
          have hn2 : (r.filter Char.isDigit).length ≠ 10 := by
            rw [hfix, hres]
            exact h2
          have hn3 : ¬ ((r.filter Char.isDigit).length = 13 ∧
              (r.filter Char.isDigit).take 2 = [('5'), ('5')]) := by
            rw [hfix, hres]
            exact h3
          rw [norm_branch4 r hn1 hn2 hn3, hfix, hres]

/-! ## Concrete fixtures for witnesses and counterexamples -/

/-- A sample property. -/
def cProp : Property :=
  { id := ("p1"), name := ("Casa da Praia"), description := none
  , address := ("123 Ocean Drive"), maxGuests := 6, dailyRate := ("400.00")
  , amenities := none, photos := none, createdAt := 0 }

/-- A sample guest. -/
def cGuest : Guest :=
  { id := ("g1"), name := ("Ana"), email := ("ana@example.com")
  , phone := ("11987654321"), cpf := none, street := none, number := none
  , complement := none, city := none, state := none, zipCode := none
  , document := none, notes := none, createdAt := 0 }

/-- A sample booking referencing the sample guest and property; the
check-in and check-out timestamps encode 2024-01-10 and 2024-01-15. -/
def cBooking : Booking :=
  { id := ("b1"), propertyId := ("p1"), guestId := ("g1")
  , checkIn := 20240110, checkOut := 20240115, numberOfGuests := 2
  , totalAmount := ("2000.00"), status := ("confirmed"), notes := none
  , createdAt := 0 }

/-- A sample store holding the property, the guest and the booking. -/
def cStore : MemStorage :=
  { properties := [cProp], guests := [cGuest], bookings := [cBooking]
  , maintenanceTasks := [], expenses := [], messages := [] }

/-! ## C1: booking list operations and the unresolved join -/

/-- C1 counterexample: delete the guest referenced by the only booking;
the claim says getBookings must then omit that booking, but the code
still returns it (with the embedded guest undefined), so the list has
length one and carries booking b1 with no guest. -/
theorem booking_omission_counterexample :
    ((((cStore.deleteGuest ("g1")).1.getBookings).map (fun v => v.booking.id)) = [("b1")])
    ∧ ((cStore.deleteGuest ("g1")).1.getGuest ("g1") = none)
    ∧ (((cStore.deleteGuest ("g1")).1.getBookings).map (fun v => v.guest) = [none]) := by
  decide

/-- C1 amended. Every booking list operation returns one joined view per
stored booking: the view embeds the resolved guest and property when
the lookups succeed and embeds undefined otherwise, and a booking
whose guestId or propertyId does not resolve is still included (never
omitted); the by-property and by-guest variants are exactly the
corresponding filters of that list. Only the single-booking lookup
getBooking returns not-found when either reference fails to resolve. -/
theorem booking_lists_join_without_omission :
    (∀ s : MemStorage, (s.getBookings).length = s.bookings.length)
    ∧ (∀ s : MemStorage, ∀ bk, bk ∈ s.bookings → joinBooking s bk ∈ s.getBookings)
    ∧ (∀ s : MemStorage, ∀ v, v ∈ s.getBookings →
        v.booking ∈ s.bookings ∧ v.guest = s.getGuest v.booking.guestId
        ∧ v.property = s.getProperty v.booking.propertyId)
    ∧ (∀ s : MemStorage, ∀ pid v,
        v ∈ s.getBookingsByProperty pid ↔ v ∈ s.getBookings ∧ v.booking.propertyId = pid)
    ∧ (∀ s : MemStorage, ∀ gid v,
        v ∈ s.getBookingsByGuest gid ↔ v ∈ s.getBookings ∧ v.booking.guestId = gid)
    ∧ (∀ s : MemStorage, ∀ id bk, getById Booking.id s.bookings id = some bk →
        (s.getGuest bk.guestId = none ∨ s.getProperty bk.propertyId = none) →
        s.getBooking id = none) := by
  refine ⟨?_, ?_, ?_, ?_, ?_, ?_⟩
  · intro s
    simp [MemStorage.getBookings]
  · intro s bk hbk
    exact List.mem_map_of_mem (joinBooking s) hbk
  · intro s v hv
    rcases List.mem_map.mp hv with ⟨bk, hbk, rfl⟩
    exact ⟨hbk, rfl, rfl⟩
  · intro s pid v
    simp [MemStorage.getBookingsByProperty, List.mem_filter]
  · intro s gid v
    simp [MemStorage.getBookingsByGuest, List.mem_filter]
  · intro s id bk hfind hnone
    rcases hG : s.getGuest bk.guestId with _ | g
    · simp [MemStorage.getBooking, hfind, hG]
    · rcases hP : s.getProperty bk.propertyId with _ | p
      · simp [MemStorage.getBooking, hfind, hG, hP]
      · exfalso
        rcases hnone with hg | hp
        · rw [hG] at hg
          exact Option.noConfusion hg
        · rw [hP] at hp
          exact Option.noConfusion hp

/-- C1 amended witness: in the sample store with the guest deleted, the
booking count is preserved by the joined list, the unresolved view is
a member, and getBooking on b1 is not-found. -/
theorem booking_lists_join_without_omission_witness :
    joinBooking (cStore.deleteGuest ("g1")).1 cBooking ∈
      ((cStore.deleteGuest ("g1")).1.getBookings)
    ∧ (cStore.deleteGuest ("g1")).1.getBooking ("b1") = none := by
  constructor
  · exact booking_lists_join_without_omission.2.1 (cStore.deleteGuest ("g1")).1 cBooking
      (by decide)
  · exact booking_lists_join_without_omission.2.2.2.2.2 (cStore.deleteGuest ("g1")).1
      ("b1") cBooking (by decide) (Or.inl (by decide))

/-! ## C3: date-range overlap -/

/-- C3. A stored booking appears in getBookingsByDateRange(start, end)
exactly when its interval overlaps the queried range, checkIn at most
end and checkOut at least start; concretely the booking with check-in
2024-01-10 and check-out 2024-01-15 is included for the range from
2024-01-12 to 2024-01-20 and excluded for the range from 2024-01-20 to
2024-01-25. -/
theorem date_range_overlap :
    (∀ s : MemStorage, ∀ startDate endDate : Int, ∀ bk : Booking, bk ∈ s.bookings →
      (joinBooking s bk ∈ s.getBookingsByDateRange startDate endDate ↔
        (bk.checkIn ≤ endDate ∧ startDate ≤ bk.checkOut)))
    ∧ joinBooking cStore cBooking ∈ cStore.getBookingsByDateRange 20240112 20240120
    ∧ joinBooking cStore cBooking ∉ cStore.getBookingsByDateRange 20240120 20240125 := by
  refine ⟨?_, ?_, ?_⟩
  · intro s startDate endDate bk hbk
    constructor
    · intro hv
      have hp := (List.mem_filter.mp hv).2
      rw [Bool.and_eq_true, decide_eq_true_eq, decide_eq_true_eq] at hp
      exact hp
    · intro hov
      refine List.mem_filter.mpr ⟨List.mem_map_of_mem (joinBooking s) hbk, ?_⟩
      rw [Bool.and_eq_true, decide_eq_true_eq, decide_eq_true_eq]
      exact hov
  · decide
  · decide

/-- C3 witness: the general overlap criterion applied to the sample
store and booking at the overlapping range. -/
theorem date_range_overlap_witness :
    joinBooking cStore cBooking ∈ cStore.getBookingsByDateRange 20240112 20240120 :=
  (date_range_overlap.1 cStore 20240112 20240120 cBooking (by decide)).mpr (by decide)

/-! ## C4: partial update preserves id and creation timestamp -/

/-- C4. For each of the six entity kinds: any partial merge leaves the
id and the creation timestamp (createdAt; sentAt for messages) equal
to the stored values; the empty partial returns the record with every
field unchanged; update on an absent id returns not-found with the
store unchanged; and update on a present id returns exactly the merge
of the partial over the stored record. -/
theorem update_partial_merge_frame :
    ((∀ e p, (applyPartialProperty e p).id = e.id
        ∧ (applyPartialProperty e p).createdAt = e.createdAt)
      ∧ (∀ e, applyPartialProperty e emptyPartialProperty = e)
      ∧ (∀ (s : MemStorage) (id : String) p, getById Property.id s.properties id = none →
          s.updateProperty id p = (s, none))
      ∧ (∀ (s : MemStorage) (id : String) p e, getById Property.id s.properties id = some e →
          (s.updateProperty id p).2 = some (applyPartialProperty e p)))
    ∧ ((∀ e p, (applyPartialGuest e p).id = e.id
        ∧ (applyPartialGuest e p).createdAt = e.createdAt)
      ∧ (∀ e, applyPartialGuest e emptyPartialGuest = e)
      ∧ (∀ (s : MemStorage) (id : String) p, getById Guest.id s.guests id = none →
          s.updateGuest id p = (s, none))
      ∧ (∀ (s : MemStorage) (id : String) p e, getById Guest.id s.guests id = some e →
          (s.updateGuest id p).2 = some (applyPartialGuest e p)))
    ∧ ((∀ e p, (applyPartialBooking e p).id = e.id
        ∧ (applyPartialBooking e p).createdAt = e.createdAt)
      ∧ (∀ e, applyPartialBooking e emptyPartialBooking = e)
      ∧ (∀ (s : MemStorage) (id : String) p, getById Booking.id s.bookings id = none →
          s.updateBooking id p = (s, none))
      ∧ (∀ (s : MemStorage) (id : String) p e, getById Booking.id s.bookings id = some e →
          (s.updateBooking id p).2 = some (applyPartialBooking e p)))
    ∧ ((∀ e p, (applyPartialMaintenanceTask e p).id = e.id
        ∧ (applyPartialMaintenanceTask e p).createdAt = e.createdAt)
      ∧ (∀ e, applyPartialMaintenanceTask e emptyPartialMaintenanceTask = e)
      ∧ (∀ (s : MemStorage) (id : String) p, getById MaintenanceTask.id s.maintenanceTasks id = none →
          s.updateMaintenanceTask id p = (s, none))
      ∧ (∀ (s : MemStorage) (id : String) p e, getById MaintenanceTask.id s.maintenanceTasks id = some e →
          (s.updateMaintenanceTask id p).2 = some (applyPartialMaintenanceTask e p)))
    ∧ ((∀ e p, (applyPartialExpense e p).id = e.id
        ∧ (applyPartialExpense e p).createdAt = e.createdAt)
      ∧ (∀ e, applyPartialExpense e emptyPartialExpense = e)
      ∧ (∀ (s : MemStorage) (id : String) p, getById Expense.id s.expenses id = none →
          s.updateExpense id p = (s, none))
      ∧ (∀ (s : MemStorage) (id : String) p e, getById Expense.id s.expenses id = some e →
          (s.updateExpense id p).2 = some (applyPartialExpense e p)))
    ∧ ((∀ e p, (applyPartialMessage e p).id = e.id
        ∧ (applyPartialMessage e p).sentAt = e.sentAt)
      ∧ (∀ e, applyPartialMessage e emptyPartialMessage = e)
      ∧ (∀ (s : MemStorage) (id : String) p, getById Message.id s.messages id = none →
          s.updateMessage id p = (s, none))
      ∧ (∀ (s : MemStorage) (id : String) p e, getById Message.id s.messages id = some e →
          (s.updateMessage id p).2 = some (applyPartialMessage e p))) := by
  refine ⟨⟨fun e p => ⟨rfl, rfl⟩, fun e => rfl, ?_, ?_⟩,
    ⟨fun e p => ⟨rfl, rfl⟩, fun e => rfl, ?_, ?_⟩,
    ⟨fun e p => ⟨rfl, rfl⟩, fun e => rfl, ?_, ?_⟩,
    ⟨fun e p => ⟨rfl, rfl⟩, fun e => rfl, ?_, ?_⟩,
    ⟨fun e p => ⟨rfl, rfl⟩, fun e => rfl, ?_, ?_⟩,
    ⟨fun e p => ⟨rfl, rfl⟩, fun e => rfl, ?_, ?_⟩⟩
  · intro s id p h
    simp [MemStorage.updateProperty, h]
  · intro s id p e h
    simp [MemStorage.updateProperty, h]
  · intro s id p h
    simp [MemStorage.updateGuest, h]
  · intro s id p e h
    simp [MemStorage.updateGuest, h]
  · intro s id p h
    simp [MemStorage.updateBooking, h]
  · intro s id p e h
    simp [MemStorage.updateBooking, h]
  · intro s id p h
    simp [MemStorage.updateMaintenanceTask, h]
  · intro s id p e h
    simp [MemStorage.updateMaintenanceTask, h]
  · intro s id p h
    simp [MemStorage.updateExpense, h]
  · intro s id p e h
    simp [MemStorage.updateExpense, h]
  · intro s id p h
    simp [MemStorage.updateMessage, h]
  · intro s id p e h
    simp [MemStorage.updateMessage, h]

/-- C4 witness: updating the sample property with the empty partial
returns it unchanged, and updating an absent id is not-found with the
store untouched. -/
theorem update_partial_merge_frame_witness :
    (cStore.updateProperty ("p1") emptyPartialProperty).2 = some cProp
    ∧ cStore.updateProperty ("zzz") emptyPartialProperty = (cStore, none) := by
  constructor
  · rw [update_partial_merge_frame.1.2.2.2 cStore ("p1") emptyPartialProperty cProp
      (by decide)]
    rw [update_partial_merge_frame.1.2.1 cProp]
  · exact update_partial_merge_frame.1.2.2.1 cStore ("zzz") emptyPartialProperty (by decide)

/-! ## Helper lemmas for the status-update frame -/

/-- A successful find? splits the list at the first match: everything
before the found element fails the predicate. -/
lemma find?_first {α : Type} (p : α → Bool) :
    ∀ (l : List α) (a : α), l.find? p = some a →
      ∃ pre post, l = pre ++ a :: post ∧ ∀ x ∈ pre, p x = false := by
  intro l
  induction l with
  | nil =>
    intro a h
    cases h
  | cons x xs ih =>
    intro a h
    by_cases hx : p x = true
    · rw [List.find?_cons_of_pos _ hx] at h
      cases h
      exact ⟨[], xs, rfl, by intro y hy; cases hy⟩
    · have hx' : p x = false := Bool.eq_false_iff.mpr hx
      rw [List.find?_cons_of_neg _ hx] at h
      rcases ih a h with ⟨pre, post, heq, hpre⟩
      refine ⟨x :: pre, post, by rw [heq]; rfl, ?_⟩
      intro y hy
      rcases List.mem_cons.mp hy with rfl | hy2
      · exact hx'
      · exact hpre y hy2

/-- Map.set with a key already in the collection replaces in place. -/
lemma setById_of_mem {α : Type} (getId : α → String) (l : List α) (v : α)
    (h : ∃ x ∈ l, getId x = getId v) :
    setById getId l v = l.map (fun x => if getId x == getId v then v else x) := by
  rcases h with ⟨x, hx, hid⟩
  unfold setById
  rw [if_pos]
  exact List.any_eq_true.mpr ⟨x, hx, by rw [hid]; exact beq_self_eq_true _⟩

/-! ## C6: status update by external message id -/

/-- A sample whatsapp message with an external message id. -/
def cMsg : Message :=
  { id := ("m1"), bookingId := none, guestId := some ("g1"), subject := none
  , content := ("Hello"), type := ("general"), channel := ("whatsapp")
  , direction := ("outgoing"), whatsappMessageId := some ("wamid1")
  , whatsappStatus := some ("sent"), fromNumber := some ("111")
  , toNumber := some ("222"), isRead := false, sentAt := 0 }

/-- A sample store holding one whatsapp message. -/
def cStoreW : MemStorage :=
  { properties := [cProp], guests := [cGuest], bookings := []
  , maintenanceTasks := [], expenses := [], messages := [cMsg] }

/-- C6. updateWhatsAppMessageStatus finds the first stored message whose
whatsappMessageId equals the external id, sets only its whatsappStatus
(every other field keeps its prior value), rewrites exactly that
message in the collection leaving the other collections and all other
messages unchanged, and returns the updated record; when no message
matches it returns not-found and the whole store is unchanged. -/
theorem whatsapp_status_update_frame :
    (∀ (s : MemStorage) (wid st : String) (m : Message),
      s.messages.find? (fun x => x.whatsappMessageId == some wid) = some m →
      ((s.updateWhatsAppMessageStatus wid st).2 =
          some ({ m with whatsappStatus := some st })
        ∧ (∀ r, (s.updateWhatsAppMessageStatus wid st).2 = some r →
            r.id = m.id ∧ r.bookingId = m.bookingId ∧ r.guestId = m.guestId
            ∧ r.subject = m.subject ∧ r.content = m.content ∧ r.type = m.type
            ∧ r.channel = m.channel ∧ r.direction = m.direction
            ∧ r.whatsappMessageId = m.whatsappMessageId
            ∧ r.whatsappStatus = some st ∧ r.fromNumber = m.fromNumber
            ∧ r.toNumber = m.toNumber ∧ r.isRead = m.isRead ∧ r.sentAt = m.sentAt)
        ∧ (s.updateWhatsAppMessageStatus wid st).1.messages =
            s.messages.map (fun x =>
              if x.id == m.id then { m with whatsappStatus := some st } else x)
        ∧ (s.updateWhatsAppMessageStatus wid st).1.properties = s.properties
        ∧ (s.updateWhatsAppMessageStatus wid st).1.guests = s.guests
        ∧ (s.updateWhatsAppMessageStatus wid st).1.bookings = s.bookings
        ∧ (s.updateWhatsAppMessageStatus wid st).1.maintenanceTasks = s.maintenanceTasks
        ∧ (s.updateWhatsAppMessageStatus wid st).1.expenses = s.expenses
        ∧ (∀ x ∈ s.messages, x.id ≠ m.id →
            x ∈ (s.updateWhatsAppMessageStatus wid st).1.messages)
        ∧ (∃ pre post, s.messages = pre ++ m :: post
            ∧ ∀ x ∈ pre, (x.whatsappMessageId == some wid) = false)))
    ∧ (∀ (s : MemStorage) (wid st : String),
        s.messages.find? (fun x => x.whatsappMessageId == some wid) = none →
        s.updateWhatsAppMessageStatus wid st = (s, none)) := by
  constructor
  · intro s wid st m hfind
    have hm : m ∈ s.messages := List.mem_of_find?_eq_some hfind
    have hset : setById Message.id s.messages ({ m with whatsappStatus := some st }) =
        s.messages.map (fun x =>
          if x.id == m.id then { m with whatsappStatus := some st } else x) :=
      setById_of_mem Message.id s.messages ({ m with whatsappStatus := some st })
        ⟨m, hm, rfl⟩
    refine ⟨?_, ?_, ?_, ?_, ?_, ?_, ?_, ?_, ?_, ?_⟩
    · simp [MemStorage.updateWhatsAppMessageStatus, hfind]
    · intro r hr
      have : some ({ m with whatsappStatus := some st }) = some r := by
        rw [← hr]
        simp [MemStorage.updateWhatsAppMessageStatus, hfind]
      cases Option.some.injEq _ _ ▸ this
      exact ⟨rfl, rfl, rfl, rfl, rfl, rfl, rfl, rfl, rfl, rfl, rfl, rfl, rfl, rfl⟩
    · simp only [MemStorage.updateWhatsAppMessageStatus, hfind]
      exact hset
    · simp [MemStorage.updateWhatsAppMessageStatus, hfind]
    · simp [MemStorage.updateWhatsAppMessageStatus, hfind]
    · simp [MemStorage.updateWhatsAppMessageStatus, hfind]
    · simp [MemStorage.updateWhatsAppMessageStatus, hfind]
    · simp [MemStorage.updateWhatsAppMessageStatus, hfind]
    · intro x hx hne
      simp only [MemStorage.updateWhatsAppMessageStatus, hfind]
      rw [hset]
      refine List.mem_map.mpr ⟨x, hx, ?_⟩
      rw [if_neg]
      intro hb
      exact hne (by rwa [beq_iff_eq] at hb)
    · exact find?_first _ s.messages m hfind
  · intro s wid st hfind
    simp [MemStorage.updateWhatsAppMessageStatus, hfind]

/-- C6 witness: updating the sample store by external id wamid1 to
delivered returns the message with only whatsappStatus changed. -/
theorem whatsapp_status_update_frame_witness :
    (cStoreW.updateWhatsAppMessageStatus ("wamid1") ("delivered")).2 =
      some ({ cMsg with whatsappStatus := some ("delivered") }) :=
  (whatsapp_status_update_frame.1 cStoreW ("wamid1") ("delivered") cMsg (by decide)).1

/-! ## C5 and C7: send operations -/

/-- A sample provider configuration. -/
def cConfig : WhatsAppConfig :=
  { accessToken := ("token1"), phoneNumberId := ("5511000000000")
  , verifyToken := ("vt"), webhookUrl := none }

/-- A configured gateway. -/
def cSvc : WhatsAppService := { config := some cConfig }

/-- An unconfigured gateway. -/
def cSvcUnconfigured : WhatsAppService := { config := none }

/-- An optional string that the JS logical-or skips is either absent or
empty, so the fallback is taken. -/
lemma jsOrStr_of_null (a : Option String) (b : String) (h : jsStrOrNull a = none) :
    jsOrStr a b = b := by
  cases a with
  | none => rfl
  | some q =>
    by_cases hq : q = ("")
    · simp [jsOrStr, hq]
    · exfalso
      simp [jsStrOrNull, hq] at h

/-- C5. When the provider call fails, neither send operation persists
any Message (the store, its message collection included, is returned
unchanged), and the raised error message is the provider error
message when available (present and non-empty), else the transport
error message when that is available. -/
theorem send_failure_no_persist :
    (∀ (svc : WhatsAppService) (s : MemStorage) (toPhone msg : String)
        (gid bid pm tm : Option String) (fid : String) (now : Int),
      svc.isConfigured = true →
      ((svc.sendTextMessage s toPhone msg gid bid
          (ProviderResult.failure pm tm) fid now).1 = s
        ∧ (∃ e, (svc.sendTextMessage s toPhone msg gid bid
            (ProviderResult.failure pm tm) fid now).2 = Except.error e)
        ∧ (∀ p, pm = some p → p ≠ ("") →
            (svc.sendTextMessage s toPhone msg gid bid
              (ProviderResult.failure pm tm) fid now).2 = Except.error p)
        ∧ (jsStrOrNull pm = none → ∀ t, tm = some t → t ≠ ("") →
            (svc.sendTextMessage s toPhone msg gid bid
              (ProviderResult.failure pm tm) fid now).2 = Except.error t)))
    ∧ (∀ (svc : WhatsAppService) (s : MemStorage) (toPhone tpl lang : String)
        (params : Option (List String)) (gid bid pm tm : Option String)
        (fid : String) (now : Int),
      svc.isConfigured = true →
      ((svc.sendTemplateMessage s toPhone tpl lang params gid bid
          (ProviderResult.failure pm tm) fid now).1 = s
        ∧ (∃ e, (svc.sendTemplateMessage s toPhone tpl lang params gid bid
            (ProviderResult.failure pm tm) fid now).2 = Except.error e)
        ∧ (∀ p, pm = some p → p ≠ ("") →
            (svc.sendTemplateMessage s toPhone tpl lang params gid bid
              (ProviderResult.failure pm tm) fid now).2 = Except.error p)
        ∧ (jsStrOrNull pm = none → ∀ t, tm = some t → t ≠ ("") →
            (svc.sendTemplateMessage s toPhone tpl lang params gid bid
              (ProviderResult.failure pm tm) fid now).2 = Except.error t))) := by
  constructor
  · intro svc s toPhone msg gid bid pm tm fid now hconf
    refine ⟨?_, ?_, ?_, ?_⟩
    · simp [WhatsAppService.sendTextMessage, hconf]
    · exact ⟨jsOrStr pm (jsOrStr tm ("Failed to send WhatsApp message")),
        by simp [WhatsAppService.sendTextMessage, hconf]⟩
    · intro p hp hne
      simp [WhatsAppService.sendTextMessage, hconf, hp, jsOrStr, hne]
    · intro hnull t ht hne
      simp only [WhatsAppService.sendTextMessage, hconf]
      rw [if_neg (by simp), jsOrStr_of_null pm _ hnull, ht]
      simp [jsOrStr, hne]
  · intro svc s toPhone tpl lang params gid bid pm tm fid now hconf
    refine ⟨?_, ?_, ?_, ?_⟩
    · simp [WhatsAppService.sendTemplateMessage, hconf]
    · exact ⟨jsOrStr pm (jsOrStr tm ("Failed to send WhatsApp template")),
        by simp [WhatsAppService.sendTemplateMessage, hconf]⟩
    · intro p hp hne
      simp [WhatsAppService.sendTemplateMessage, hconf, hp, jsOrStr, hne]
    · intro hnull t ht hne
      simp only [WhatsAppService.sendTemplateMessage, hconf]
      rw [if_neg (by simp), jsOrStr_of_null pm _ hnull, ht]
      simp [jsOrStr, hne]

/-- C5 witness: a failed text send on the configured sample gateway
leaves the sample store unchanged and raises the provider message. -/
theorem send_failure_no_persist_witness :
    ((cSvc.sendTextMessage cStoreW ("5511987654321") ("hi") none none
        (ProviderResult.failure (some ("boom")) (some ("net"))) ("m2") 0).1 = cStoreW)
    ∧ ((cSvc.sendTextMessage cStoreW ("5511987654321") ("hi") none none
        (ProviderResult.failure (some ("boom")) (some ("net"))) ("m2") 0).2 =
          Except.error ("boom")) := by
  have h := send_failure_no_persist.1 cSvc cStoreW ("5511987654321") ("hi") none none
    (some ("boom")) (some ("net")) ("m2") 0 (by decide)
  exact ⟨h.1, h.2.2.1 ("boom") rfl (by decide)⟩

/-- C7. While the gateway is not configured — no configuration set, or
the access token or sender id empty, which is exactly when
isConfigured is false — both send operations return the configuration
error with the store unchanged, independently of any provider
behavior (the result does not depend on the provider outcome at all,
so the provider is never contacted). -/
theorem send_unconfigured_no_persist :
    (∀ svc : WhatsAppService, svc.isConfigured = false ↔
        (svc.config = none ∨ ∃ c, svc.config = some c ∧
          (c.accessToken = ("") ∨ c.phoneNumberId = (""))))
    ∧ (∀ (svc : WhatsAppService) (s : MemStorage) (toPhone msg : String)
        (gid bid : Option String) (provider : ProviderResult) (fid : String) (now : Int),
      svc.isConfigured = false →
      svc.sendTextMessage s toPhone msg gid bid provider fid now =
        (s, Except.error ("WhatsApp service not configured")))
    ∧ (∀ (svc : WhatsAppService) (s : MemStorage) (toPhone tpl lang : String)
        (params : Option (List String)) (gid bid : Option String)
        (provider : ProviderResult) (fid : String) (now : Int),
      svc.isConfigured = false →
      svc.sendTemplateMessage s toPhone tpl lang params gid bid provider fid now =
        (s, Except.error ("WhatsApp service not configured"))) := by
  refine ⟨?_, ?_, ?_⟩
  · intro svc
    cases hc : svc.config with
    | none => simp [WhatsAppService.isConfigured, hc]
    | some c =>
      simp [WhatsAppService.isConfigured, hc]
      tauto
  · intro svc s toPhone msg gid bid provider fid now h
    simp [WhatsAppService.sendTextMessage, h]
  · intro svc s toPhone tpl lang params gid bid provider fid now h
    simp [WhatsAppService.sendTemplateMessage, h]

/-- C7 witness: a text send on the unconfigured sample gateway returns
the configuration error and the untouched store, regardless of the
provider result supplied. -/
theorem send_unconfigured_no_persist_witness :
    cSvcUnconfigured.sendTextMessage cStoreW ("5511987654321") ("hi") none none
        (ProviderResult.success ("wamid9")) ("m2") 0 =
      (cStoreW, Except.error ("WhatsApp service not configured")) :=
  send_unconfigured_no_persist.2.1 cSvcUnconfigured cStoreW ("5511987654321") ("hi")
    none none (ProviderResult.success ("wamid9")) ("m2") 0 (by decide)

/-! ## C8: webhook processing never propagates exceptions -/

/-- C8. processIncomingMessage and processStatusUpdate always resolve
normally: for every payload (including a null payload, whose first
property access makes the try-block throw) and every store state, each
operation returns ok, never an error. The try-blocks themselves can
fail — on the null payload they raise the modelled TypeError — and the
catch handler turns exactly those failures into a normal return with
the store untouched. -/
theorem webhook_processing_never_propagates :
    (∀ (svc : WhatsAppService) (s : MemStorage) (payload : Option IncomingPayload)
        (fid : String) (now : Int),
      ∃ s2, processIncomingMessage svc s payload fid now = Except.ok s2)
    ∧ (∀ (s : MemStorage) (payload : Option StatusPayload),
      ∃ s2, processStatusUpdate s payload = Except.ok s2)
    ∧ (∃ e, processIncomingMessageBody cSvc cStoreW none ("m9") 0 = Except.error e)
    ∧ (∃ e, processStatusUpdateBody cStoreW none = Except.error e)
    ∧ processIncomingMessage cSvc cStoreW none ("m9") 0 = Except.ok cStoreW
    ∧ processStatusUpdate cStoreW none = Except.ok cStoreW := by
  refine ⟨?_, ?_, ?_, ?_, ?_, ?_⟩
  · intro svc s payload fid now
    rcases hb : processIncomingMessageBody svc s payload fid now with e | s2
    · exact ⟨s, by simp [processIncomingMessage, hb]⟩
    · exact ⟨s2, by simp [processIncomingMessage, hb]⟩
  · intro s payload
    rcases hb : processStatusUpdateBody s payload with e | s2
    · exact ⟨s, by simp [processStatusUpdate, hb]⟩
    · exact ⟨s2, by simp [processStatusUpdate, hb]⟩
  · exact ⟨("TypeError: cannot read properties of null"), rfl⟩
  · exact ⟨("TypeError: cannot read properties of null"), rfl⟩
  · rfl
  · rfl

/-! ## C9: the WhatsApp message filter -/

/-- C9 counterexample: the sample store has one whatsapp message whose
fromNumber is 111 and toNumber is 222; called with the empty string as
the phoneNumber, getWhatsAppMessages still returns that message even
though neither number equals the empty string, contradicting the
claimed exact-equality filter for every supplied phoneNumber. -/
theorem whatsapp_filter_empty_counterexample :
    ((cStoreW.getWhatsAppMessages (some (""))).map (fun v => v.message.id) = [("m1")])
    ∧ cMsg.fromNumber ≠ some ("") ∧ cMsg.toNumber ≠ some ("")
    ∧ cStoreW.messages = [cMsg] := by
  decide

/-- C9 amended. getWhatsAppMessages with no phoneNumber, or with the
empty string (which the JS truthiness guard treats as absent), returns
exactly the channel=whatsapp messages; with a non-empty phoneNumber it
returns exactly the channel=whatsapp messages whose fromNumber or
toNumber equals the given string by exact string equality, with no
normalization applied. -/
theorem whatsapp_message_filter_amended :
    (∀ s : MemStorage, s.getWhatsAppMessages none = s.getMessagesByChannel ("whatsapp"))
    ∧ (∀ s : MemStorage,
        s.getWhatsAppMessages (some ("")) = s.getMessagesByChannel ("whatsapp"))
    ∧ (∀ (s : MemStorage) (v : MessageWithRelations),
        v ∈ s.getMessagesByChannel ("whatsapp") ↔
          v ∈ s.getMessages ∧ v.message.channel = ("whatsapp"))
    ∧ (∀ (s : MemStorage) (pn : String), pn ≠ ("") →
        ∀ v : MessageWithRelations,
          (v ∈ s.getWhatsAppMessages (some pn) ↔
            v ∈ s.getMessages ∧ v.message.channel = ("whatsapp")
            ∧ (v.message.fromNumber = some pn ∨ v.message.toNumber = some pn))) := by
  refine ⟨?_, ?_, ?_, ?_⟩
  · intro s
    rfl
  · intro s
    rfl
  · intro s v
    simp [MemStorage.getMessagesByChannel, List.mem_filter]
  · intro s pn hpn v
    have hguard : jsOptTruthy (some pn) = true := by
      simp [jsOptTruthy, hpn]
    simp [MemStorage.getWhatsAppMessages, MemStorage.getMessagesByChannel, hguard,
      List.mem_filter, and_assoc]
    intro hv
    tauto

/-- C9 amended witness: the sample message is returned when filtering by
its exact fromNumber. -/
theorem whatsapp_message_filter_amended_witness :
    joinMessage cStoreW cMsg ∈ cStoreW.getWhatsAppMessages (some ("111")) :=
  (whatsapp_message_filter_amended.2.2.2 cStoreW ("111") (by decide)
    (joinMessage cStoreW cMsg)).mpr (by decide)

end CasaMoringa
